import Mathlib

/-
Verification of the kan-mcp task analytics engine (Go sources under
internal/handlers: tasks.go, priorities.go, analytics.go, and
internal/models/kanboard.go).

Modelling conventions, shared by all definitions below:

* Timestamps.  The Go code stores dates as strings produced by
  `Time.Format("2006-01-02T15:04:05Z")` (empty string for Go's zero time)
  and re-parses them with the same fixed layout; that round trip is the
  identity, so dates are modelled as `Option Int` (seconds, `none` for
  the empty string / zero time).  The layout is fixed-width with a
  zero-padded 4-digit year, hence Go's lexicographic string comparison
  of two non-empty formatted dates coincides with `<` on the seconds,
  and the empty string is strictly below every non-empty date string.
* `int(d.Hours() / 24)`.  `Duration.Hours` of a whole number of seconds
  is `seconds / 3600` and the Go `int(...)` conversion truncates toward
  zero; for second-resolution durations in the representable range the
  composed float computation equals truncating integer division, so it
  is modelled as `Int.tdiv seconds 86400`.
* Floating point hour counters (`TimeEstimated`, `TimeSpent`, cycle-time
  day counts) are modelled as rationals.
* `sort.Slice` is NOT a stable sort; Go only guarantees that the result
  is a permutation of the input that is sorted with respect to the
  comparator.  It is therefore modelled by the relation `IsGoSorted`
  rather than by a concrete function.
* Go map iteration order is unspecified; where the code iterates a map
  to build a list that is subsequently sorted (cycle-time groups), the
  model iterates in first-insertion order, which only changes the
  pre-sort order and is absorbed by the `IsGoSorted` relation.
-/

namespace KanMcp

/-- Collector constant `MaxResponseSize = 200 * 1024` (tasks.go). -/
def MaxResponseSize : Nat := 200 * 1024

/-- Collector constant `MaxTasksHardLimit = 100` (tasks.go). -/
def MaxTasksHardLimit : Nat := 100

/-- `handlers.UserInfo` (tasks.go). -/
structure UserInfo where
  id : String
  username : String
  name : String
deriving DecidableEq

/-- `handlers.ProjectInfo` (tasks.go). -/
structure ProjectInfo where
  id : String
  name : String
deriving DecidableEq

/-- `handlers.TaskStatus` (tasks.go). -/
structure TaskStatus where
  column : String
  swimlane : String
deriving DecidableEq

/-- `handlers.TaskDates` (tasks.go); each field is a formatted timestamp
string, `none` standing for the empty string. -/
structure TaskDates where
  created : Option Int
  due : Option Int
  modified : Option Int
  started : Option Int
deriving DecidableEq

/-- `handlers.TimeTracking` (tasks.go); float64 hours as rationals. -/
structure TimeTracking where
  estimatedHours : ℚ
  spentHours : ℚ
  remainingHours : ℚ
deriving DecidableEq

/-- `handlers.TaskDetail` (tasks.go), the canonical task record. -/
structure TaskDetail where
  id : String
  title : String
  description : String
  project : ProjectInfo
  assignee : Option UserInfo
  status : TaskStatus
  dates : TaskDates
  timeTracking : Option TimeTracking
  priority : String
  category : String
  tags : List String
  url : String
  isOverdue : Bool
  daysUntilDue : Option Int
deriving DecidableEq

/-- The fields of `models.Task` (kanboard.go) that `buildTaskDetail`
reads; the remaining fields of the Go struct (color, position,
recurrence data, ...) are never consulted by the embedded functions.
`KanboardTime` zero values are `none`. -/
structure Task where
  id : Int
  title : String
  description : String
  columnID : Int
  swimlaneID : Int
  ownerID : Int
  dateCreation : Option Int
  dateDue : Option Int
  dateModified : Option Int
  dateStarted : Option Int
  timeEstimated : ℚ
  timeSpent : ℚ
deriving DecidableEq

/-- `handlers.ProjectData` (tasks.go). -/
structure ProjectData where
  id : Int
  name : String
deriving DecidableEq

/-- `TasksHandler.calculateDueDateInfo` (tasks.go).  The due-date string
always parses (it was produced by `Format` with the same layout; the
empty-string and parse-failure branches both return `(false, nil)`).
`days := int(dueDate.Sub(now).Hours() / 24)` truncates toward zero and
`isOverdue := dueDate.Before(now)` is a strict comparison. -/
def calculateDueDateInfo (dueDate : Option Int) (now : Int) : Bool × Option Int :=
  match dueDate with
  | none => (false, none)
  | some d => (decide (d < now), some (Int.tdiv (d - now) 86400))

/-- `TasksHandler.buildTaskDetail` (tasks.go).  `columnMap`/`swimlaneMap`
model Go maps whose missing keys yield `""`; `userMap` models the
`user, exists := userMap[...]` lookup.  `now` is the call-time clock
consulted by `calculateDueDateInfo`. -/
def buildTaskDetail (task : Task) (project : ProjectData)
    (columnMap swimlaneMap : Int → String) (userMap : Int → Option UserInfo)
    (baseURL : String) (includeTimeTracking : Bool) (now : Int) : TaskDetail :=
  let tid := toString task.id
  let pid := toString project.id
  let dueInfo :=
    if task.dateDue.isSome then calculateDueDateInfo task.dateDue now
    else (false, none)
  { id := tid
    title := task.title
    description := task.description
    project := { id := pid, name := project.name }
    assignee := if task.ownerID > 0 then userMap task.ownerID else none
    status := { column := columnMap task.columnID, swimlane := swimlaneMap task.swimlaneID }
    dates :=
      { created := task.dateCreation
        due := task.dateDue
        modified := task.dateModified
        started := task.dateStarted }
    timeTracking :=
      if includeTimeTracking then
        some { estimatedHours := task.timeEstimated
               spentHours := task.timeSpent
               remainingHours := task.timeEstimated - task.timeSpent }
      else none
    priority := "normal"
    category := ""
    tags := []
    url := baseURL ++ "/?controller=TaskViewController&action=show&task_id=" ++ tid
      ++ "&project_id=" ++ pid
    isOverdue := dueInfo.1
    daysUntilDue := dueInfo.2 }

/-- `handlers.DateRange` (tasks.go); `none` stands for the empty string.
The Go field `End` is a Lean keyword, hence `endDate`. -/
structure DateRange where
  start : Option Int
  endDate : Option Int
deriving DecidableEq

/-- The fields of `handlers.TasksRequest` (tasks.go) consulted after the
fetch phase; `ProjectIDs` only steers the upstream fetch and
`IncludeTimeTracking` is threaded to `buildTaskDetail` directly. -/
structure TasksRequest where
  assigneeIDs : List String
  statusFilter : String
  dueDateRange : Option DateRange
  includeOverdue : Bool
  includeTimeTracking : Bool
  sortBy : String
  limit : Nat
  summaryMode : Bool
deriving DecidableEq

/-- ASCII lower-casing of one character. -/
def foldChar (c : Char) : Char :=
  if 65 ≤ c.toNat ∧ c.toNat ≤ 90 then Char.ofNat (c.toNat + 32) else c

/-- ASCII lower-casing of a string. -/
def lowerStr (s : String) : String := String.mk (s.data.map foldChar)

/-- Models `strings.EqualFold` on the ASCII range (the completed-column
vocabulary is pure ASCII). -/
def eqFold (a b : String) : Bool := lowerStr a == lowerStr b

/-- `TasksHandler.isTaskCompleted` (tasks.go): case-insensitive match
against the completed-column vocabulary. -/
def isTaskCompleted (task : TaskDetail) : Bool :=
  ["Done", "Completed", "Closed", "Finished"].any fun col => eqFold task.status.column col

/-- `TasksHandler.isTaskInDateRange` (tasks.go).  A task with no due
date never matches; range bounds parse from fixed-layout strings
(modelled total), comparisons are `Before`/`After`, i.e. strict. -/
def isTaskInDateRange (task : TaskDetail) (dateRange : DateRange) : Bool :=
  match task.dates.due with
  | none => false
  | some dueDate =>
    (match dateRange.start with
     | none => true
     | some startDate => !(decide (dueDate < startDate))) &&
    (match dateRange.endDate with
     | none => true
     | some endDate => !(decide (endDate < dueDate)))

/-- `TasksHandler.shouldIncludeTask` (tasks.go), with the checks in the
source order: status filter, assignee membership, overdue inclusion,
due-date range. -/
def shouldIncludeTask (task : TaskDetail) (req : TasksRequest) : Bool :=
  if req.statusFilter == "active" && isTaskCompleted task then false
  else if req.statusFilter == "completed" && !isTaskCompleted task then false
  else if req.assigneeIDs.length > 0 &&
      (match task.assignee with
       | none => true
       | some a => !(req.assigneeIDs.any fun assigneeID => a.id == assigneeID)) then false
  else if !req.includeOverdue && task.isOverdue then false
  else
    match req.dueDateRange with
    | some r => isTaskInDateRange task r
    | none => true

/-- `TasksHandler.filterTasks` (tasks.go). -/
def filterTasks (tasks : List TaskDetail) (req : TasksRequest) : List TaskDetail :=
  tasks.filter fun task => shouldIncludeTask task req

/-- `TasksHandler.getPriorityValue` (tasks.go); the Go switch falls
through to `1` for unknown strings. -/
def getPriorityValue (p : String) : Int :=
  if p == "urgent" then 3
  else if p == "high" then 2
  else if p == "normal" then 1
  else if p == "low" then 0
  else 1

/-- The `due_date` comparator of `TasksHandler.sortTasks` (tasks.go):
empty due dates compare as in the source's three special cases, two
non-empty formatted dates compare by Go string order = seconds order. -/
def dueDateLess (a b : TaskDetail) : Bool :=
  match a.dates.due, b.dates.due with
  | none, none => false
  | none, some _ => false
  | some _, none => true
  | some x, some y => decide (x < y)

/-- The `priority` comparator of `TasksHandler.sortTasks` (tasks.go). -/
def priorityLess (a b : TaskDetail) : Bool :=
  decide (getPriorityValue b.priority < getPriorityValue a.priority)

/-- The `created` comparator of `TasksHandler.sortTasks` (tasks.go):
`Created_i > Created_j` on the formatted strings, where the empty
string is strictly below every formatted date. -/
def createdLess (a b : TaskDetail) : Bool :=
  match a.dates.created, b.dates.created with
  | _, none => a.dates.created.isSome
  | none, some _ => false
  | some x, some y => decide (y < x)

/-- The comparator `TasksHandler.sortTasks` (tasks.go) selects for a
given sort key; the Go `switch` falls back to the due-date comparator
for unknown keys. -/
def sortLessFor (sortBy : String) : TaskDetail → TaskDetail → Bool :=
  if sortBy == "due_date" then dueDateLess
  else if sortBy == "priority" then priorityLess
  else if sortBy == "created" then createdLess
  else dueDateLess

/-- The guarantee Go's `sort.Slice` gives (it is documented as NOT
stable): the output is a permutation of the input in which no later
element is strictly less than an earlier one. -/
def IsGoSorted {α : Type} (less : α → α → Bool) (input output : List α) : Prop :=
  input.Perm output ∧ output.Pairwise fun a b => less b a = false

/-- A sort of `input` into `output` is stable when, for every element,
the run of elements tied with it keeps its input order. -/
def StableFor {α : Type} (less : α → α → Bool) (input output : List α) : Prop :=
  ∀ a : α,
    (output.filter fun x => !less a x && !less x a) =
      (input.filter fun x => !less a x && !less x a)

/-- `handlers.TaskSummary` (tasks.go). -/
structure TaskSummary where
  id : String
  title : String
  project : ProjectInfo
  assignee : Option UserInfo
  status : String
  dueDate : Option Int
  isOverdue : Bool
  daysUntilDue : Option Int
deriving DecidableEq

/-- `TasksHandler.createTaskSummaries` (tasks.go): truncate to `limit`,
then project each record to its summary fields. -/
def createTaskSummaries (tasks : List TaskDetail) (limit : Nat) : List TaskSummary :=
  (tasks.take limit).map fun task =>
    { id := task.id
      title := task.title
      project := task.project
      assignee := task.assignee
      status := task.status.column
      dueDate := task.dates.due
      isOverdue := task.isOverdue
      daysUntilDue := task.daysUntilDue }

/-- The limit clamping in `TasksHandler.Handle` (tasks.go, lines
138-144): the unconditional cap to `MaxTasksHardLimit` runs first, then
the summary-mode check against `MaxTasksHardLimit * 2`. -/
def handleLimit (limit : Nat) (summaryMode : Bool) : Nat :=
  let l := if limit > MaxTasksHardLimit then MaxTasksHardLimit else limit
  if summaryMode = true ∧ l > MaxTasksHardLimit * 2 then MaxTasksHardLimit * 2 else l

/-- The descending scan of `TasksHandler.applyResponseSizeLimits`
(tasks.go): the largest `limit ≤ n` whose probe serialization fits
`MaxResponseSize`, where `measure` stands for
`len(json.Marshal(TasksResponse{Summary: zero, Tasks: tasks[:limit]}))`
(serialization of these records cannot fail, so the `err != nil`
branch is dead). -/
def findFitLimit (measure : List TaskDetail → Nat) (tasks : List TaskDetail) :
    Nat → Option Nat
  | 0 => none
  | n + 1 =>
    if measure (tasks.take (n + 1)) ≤ MaxResponseSize then some (n + 1)
    else findFitLimit measure tasks n

/-- `TasksHandler.applyResponseSizeLimits` (tasks.go), parameterized by
the probe-serialization size `measure`. -/
def applyResponseSizeLimits (measure : List TaskDetail → Nat)
    (tasks : List TaskDetail) (requestedLimit : Nat) :
    List TaskDetail × Bool × Nat :=
  let t := tasks.take requestedLimit
  match findFitLimit measure t t.length with
  | some limit =>
    if limit < t.length then (t.take limit, true, limit) else (t.take limit, false, 0)
  | none => ([], true, 0)

/-- The post-fetch detail-mode pipeline of `TasksHandler.Handle`
(tasks.go): clamp the limit, filter, sort with `sort.Slice` (relational,
see `IsGoSorted`), then apply the response-size limits. -/
def DetailPipelineRel (measure : List TaskDetail → Nat) (req : TasksRequest)
    (tasks : List TaskDetail) (result : List TaskDetail × Bool × Nat) : Prop :=
  ∃ sorted, IsGoSorted (sortLessFor req.sortBy) (filterTasks tasks req) sorted ∧
    result = applyResponseSizeLimits measure sorted (handleLimit req.limit req.summaryMode)

/-- The `TasksRequest` the Priority Analyzer sends to the Collector
(`PrioritiesHandler.Handle`, priorities.go): status `all`, overdue
included, time tracking on, due-date sort, limit 200, detail mode;
assignee filter and due-date range keep their zero values. -/
def prioritiesTasksRequest : TasksRequest :=
  { assigneeIDs := []
    statusFilter := "all"
    dueDateRange := none
    includeOverdue := true
    includeTimeTracking := true
    sortBy := "due_date"
    limit := 200
    summaryMode := false }

/-- `handlers.UrgentItem` (priorities.go). -/
structure UrgentItem where
  taskID : String
  title : String
  urgencyScore : Int
  reason : String
  project : String
  daysOverdue : Int
deriving DecidableEq

/-- The priority-tier bonus switch inside
`PrioritiesHandler.calculateUrgencyScore` (priorities.go); the Go
switch has no default, so foreign strings contribute 0. -/
def priorityBonus (p : String) : Int :=
  if p == "urgent" then 25
  else if p == "high" then 15
  else if p == "normal" then 5
  else 0

/-- `PrioritiesHandler.calculateUrgencyScore` (priorities.go).  `now`
and `timeLimit` are the clock and horizon bound computed by
`findUrgentItems`; the due-date parse inside the third branch always
succeeds on a formatted date. -/
def calculateUrgencyScore (task : TaskDetail) (now timeLimit : Int) : Int :=
  let s1 : Int := if task.dates.due.isSome then 20 else 0
  let s2 : Int :=
    if task.isOverdue then
      40 +
        (match task.daysUntilDue with
         | some d =>
           let daysOverdue := -d
           if daysOverdue > 7 then 30 else if daysOverdue > 3 then 20 else 10
         | none => 0)
    else 0
  let s3 : Int :=
    if !task.isOverdue then
      match task.dates.due with
      | some dueDate =>
        if dueDate < timeLimit then
          let daysUntil := Int.tdiv (dueDate - now) 86400
          if daysUntil ≤ 1 then 25
          else if daysUntil ≤ 3 then 15
          else if daysUntil ≤ 7 then 10
          else 0
        else 0
      | none => 0
    else 0
  let s4 : Int := if task.assignee.isNone then 15 else 0
  s1 + s2 + s3 + priorityBonus task.priority + s4

/-- The `s1` let of `calculateUrgencyScore` (due-date-present bonus). -/
def dueFlagBonus (task : TaskDetail) : Int :=
  if task.dates.due.isSome then 20 else 0

/-- The `s2` let of `calculateUrgencyScore` (overdue base plus
days-overdue escalation). -/
def overdueBonus (task : TaskDetail) : Int :=
  if task.isOverdue then
    40 +
      (match task.daysUntilDue with
       | some d =>
         let daysOverdue := -d
         if daysOverdue > 7 then 30 else if daysOverdue > 3 then 20 else 10
       | none => 0)
  else 0

/-- The `s3` let of `calculateUrgencyScore` (due-soon escalation within
the horizon). -/
def proximityBonus (task : TaskDetail) (now timeLimit : Int) : Int :=
  if !task.isOverdue then
    match task.dates.due with
    | some dueDate =>
      if dueDate < timeLimit then
        let daysUntil := Int.tdiv (dueDate - now) 86400
        if daysUntil ≤ 1 then 25
        else if daysUntil ≤ 3 then 15
        else if daysUntil ≤ 7 then 10
        else 0
      else 0
    | none => 0
  else 0

/-- The `s4` let of `calculateUrgencyScore` (unassigned bonus). -/
def unassignedBonus (task : TaskDetail) : Int :=
  if task.assignee.isNone then 15 else 0

/-- `PrioritiesHandler.getUrgencyReason` (priorities.go): the reasons
list is built in source order and only its head is returned. -/
def getUrgencyReason (task : TaskDetail) (now : Int) : String :=
  let overdueReasons : List String :=
    if task.isOverdue then
      match task.daysUntilDue with
      | some d =>
        let daysOverdue := -d
        if daysOverdue == 1 then ["Overdue by 1 day"]
        else ["Overdue by " ++ toString daysOverdue ++ " days"]
      | none => ["Task is overdue"]
    else
      match task.dates.due with
      | some dueDate =>
        let daysUntil := Int.tdiv (dueDate - now) 86400
        if daysUntil == 0 then ["Due today"]
        else if daysUntil == 1 then ["Due tomorrow"]
        else if daysUntil ≤ 3 then ["Due in " ++ toString daysUntil ++ " days"]
        else []
      | none => []
  let withPrio := overdueReasons ++
    (if task.priority == "urgent" then ["marked as urgent priority"]
     else if task.priority == "high" then ["marked as high priority"]
     else [])
  let reasons := withPrio ++
    (if task.assignee.isNone then ["unassigned task needs attention"] else [])
  match reasons with
  | [] => "High priority task"
  | r :: _ => r

/-- The `UrgentItem` that `PrioritiesHandler.findUrgentItems` builds for
a qualifying task; `DaysOverdue` keeps its zero value unless the task
is overdue with a recorded day count. -/
def mkUrgentItem (task : TaskDetail) (score : Int) (now : Int) : UrgentItem :=
  { taskID := task.id
    title := task.title
    urgencyScore := score
    reason := getUrgencyReason task now
    project := task.project.name
    daysOverdue :=
      if task.isOverdue then
        match task.daysUntilDue with
        | some d => -d
        | none => 0
      else 0 }

/-- The unsorted qualifying items of `PrioritiesHandler.findUrgentItems`
(priorities.go): one item per task whose score reaches 70, in task
order. -/
def urgentCandidates (tasks : List TaskDetail) (now timeLimit : Int) : List UrgentItem :=
  tasks.filterMap fun task =>
    let urgencyScore := calculateUrgencyScore task now timeLimit
    if urgencyScore ≥ 70 then some (mkUrgentItem task urgencyScore now) else none

/-- The comparator `findUrgentItems` hands to `sort.Slice`. -/
def urgencyLess (a b : UrgentItem) : Bool :=
  decide (b.urgencyScore < a.urgencyScore)

/-- `PrioritiesHandler.findUrgentItems` (priorities.go) as a relation:
sort the qualifying items with `sort.Slice` (see `IsGoSorted`), then
keep at most the first 10. -/
def FindUrgentItemsRel (tasks : List TaskDetail) (now timeLimit : Int)
    (out : List UrgentItem) : Prop :=
  ∃ sorted, IsGoSorted urgencyLess (urgentCandidates tasks now timeLimit) sorted ∧
    out = sorted.take 10

/-- `AnalyticsHandler.isTaskCompleted` (analytics.go): exact string
match against the completed-column vocabulary, unlike the Collector's
case-insensitive `TasksHandler.isTaskCompleted`. -/
def analyticsIsTaskCompleted (task : TaskDetail) : Bool :=
  ["Done", "Completed", "Closed", "Finished"].any fun col => task.status.column == col

/-- `handlers.CycleTimeMetric` (analytics.go). -/
structure CycleTimeMetric where
  column : String
  project : String
  avgDays : ℚ
  minDays : ℚ
  maxDays : ℚ
  taskCount : Nat
  efficiency : String
deriving DecidableEq

/-- Unix seconds of Go's zero `time.Time` (0001-01-01T00:00:00 UTC):
when a completed task has neither a started nor a created date,
`analyseCycleTime` leaves `startTime` at the zero time. -/
def goZeroTime : Int := -62135596800

/-- The per-task step of `AnalyticsHandler.analyseCycleTime`
(analytics.go): for a completed task with a parseable modified date and
a strictly positive duration, the group key `project.Name + ":" +
column` together with the duration in days. -/
def cycleTimeEntry (task : TaskDetail) : Option (String × ℚ) :=
  if analyticsIsTaskCompleted task then
    let startTime : Int :=
      match task.dates.started with
      | some s => s
      | none =>
        match task.dates.created with
        | some c => c
        | none => goZeroTime
    match task.dates.modified with
    | some endTime =>
      let cycleDays : ℚ := ((endTime - startTime : Int) : ℚ) / 86400
      if cycleDays > 0 then
        some (task.project.name ++ ":" ++ task.status.column, cycleDays)
      else none
    | none => none
  else none

/-- Appends one duration to its group, keeping first-insertion key
order (see the map-iteration note at the top of the file). -/
def groupInsert (key : String) (v : ℚ) :
    List (String × List ℚ) → List (String × List ℚ)
  | [] => [(key, [v])]
  | (k, vs) :: rest =>
    if k == key then (k, vs ++ [v]) :: rest else (k, vs) :: groupInsert key v rest

/-- The `columnMap` accumulation loop of `analyseCycleTime`. -/
def cycleGroups (tasks : List TaskDetail) : List (String × List ℚ) :=
  tasks.foldl
    (fun acc task =>
      match cycleTimeEntry task with
      | some (k, v) => groupInsert k v acc
      | none => acc)
    []

/-- `AnalyticsHandler.calculateAverage` (analytics.go). -/
def calculateAverage (values : List ℚ) : ℚ :=
  if values.length == 0 then 0 else values.sum / values.length

/-- `AnalyticsHandler.calculateMin` (analytics.go). -/
def calculateMin (values : List ℚ) : ℚ :=
  match values with
  | [] => 0
  | v :: _ => values.foldl (fun m x => if x < m then x else m) v

/-- `AnalyticsHandler.calculateMax` (analytics.go). -/
def calculateMax (values : List ℚ) : ℚ :=
  match values with
  | [] => 0
  | v :: _ => values.foldl (fun m x => if m < x then x else m) v

/-- The metric `analyseCycleTime` emits for one group.  The source
never recovers the project and column from the key: `keyParts` is just
the key string, and since its length is positive the names are
overwritten with the literals `"Project"` and `"Column"`. -/
def cycleMetricOf (key : String) (times : List ℚ) : CycleTimeMetric :=
  let projectName := if key.length > 0 then "Project" else "Unknown"
  let columnName := if key.length > 0 then "Column" else "Unknown"
  let avg := calculateAverage times
  { column := columnName
    project := projectName
    avgDays := avg
    minDays := calculateMin times
    maxDays := calculateMax times
    taskCount := times.length
    efficiency := if avg > 14 then "Poor" else if avg > 7 then "Average" else "Good" }

/-- The unsorted metric list of `AnalyticsHandler.analyseCycleTime`
(groups with an empty duration list are skipped, as in the source). -/
def cycleTimeMetricsRaw (tasks : List TaskDetail) : List CycleTimeMetric :=
  (cycleGroups tasks).filterMap fun kv =>
    if kv.2.length == 0 then none else some (cycleMetricOf kv.1 kv.2)

/-- The comparator `analyseCycleTime` hands to `sort.Slice`. -/
def cycleLess (a b : CycleTimeMetric) : Bool :=
  decide (b.avgDays < a.avgDays)

/-- `AnalyticsHandler.analyseCycleTime` (analytics.go) as a relation:
any `sort.Slice`-conformant descending-average arrangement of the
group metrics. -/
def AnalyseCycleTimeRel (tasks : List TaskDetail) (out : List CycleTimeMetric) : Prop :=
  IsGoSorted cycleLess (cycleTimeMetricsRaw tasks) out

/-! ## Concrete fixtures -/

/-- A fixed sample record used to instantiate universally quantified
theorems. -/
def baseDetail : TaskDetail :=
  { id := "0"
    title := "T"
    description := ""
    project := { id := "1", name := "Proj" }
    assignee := none
    status := { column := "Todo", swimlane := "Default" }
    dates := { created := none, due := none, modified := none, started := none }
    timeTracking := none
    priority := "normal"
    category := ""
    tags := []
    url := ""
    isOverdue := false
    daysUntilDue := none }

/-- Concrete upstream task: due one hour before the evaluation instant
1000000. -/
def c1KanTask : Task :=
  { id := 7
    title := "t"
    description := ""
    columnID := 1
    swimlaneID := 1
    ownerID := 0
    dateCreation := some 0
    dateDue := some 996400
    dateModified := none
    dateStarted := none
    timeEstimated := 0
    timeSpent := 0 }

/-- A record whose column is the lowercase variant `done`. -/
def doneLowerDetail : TaskDetail :=
  { baseDetail with status := { column := "done", swimlane := "" } }

/-- The always-zero probe measure used to instantiate relational
theorems on concrete inputs. -/
def measure0 : List TaskDetail → Nat := fun _ => 0

/-- First of two records tied on the due date. -/
def c5a : TaskDetail :=
  { baseDetail with
    id := "a"
    dates := { created := none, due := some 100, modified := none, started := none } }

/-- Second of two records tied on the due date. -/
def c5b : TaskDetail :=
  { baseDetail with
    id := "b"
    dates := { created := none, due := some 100, modified := none, started := none } }

/-- 101 pairwise distinct records with no due dates. -/
def c4Tasks : List TaskDetail :=
  (List.range 101).map fun n => { baseDetail with id := toString n }

/-- A task scoring 95: due date present (+20), overdue by 10 days
(+40 +30), priority `normal` (+5), assigned (+0). -/
def mkUrgTask (n : Nat) : TaskDetail :=
  { baseDetail with
    id := "u" ++ toString n
    assignee := some { id := "9", username := "w", name := "W" }
    dates := { created := none, due := some 0, modified := none, started := none }
    isOverdue := true
    daysUntilDue := some (-10) }

/-- Eleven tasks that all score 95. -/
def c6Tasks : List TaskDetail := (List.range 11).map mkUrgTask

/-- A conformant output on `c6Tasks`: the candidates (already sorted,
as all scores tie) cut to 10. -/
def c6Out : List UrgentItem := (urgentCandidates c6Tasks 900000 1504800).take 10

/-- A completed task in project `Alpha`, column `Done`, started at 0
and last modified 5 days later. -/
def c8Task : TaskDetail :=
  { baseDetail with
    id := "42"
    project := { id := "5", name := "Alpha" }
    status := { column := "Done", swimlane := "Default" }
    dates := { created := some 0, due := none, modified := some 432000, started := some 0 } }

/-! ## Helper lemmas -/

/-- Truncating division of a nonpositive number by a nonnegative one is
nonpositive. -/
theorem tdiv_nonpos_of_nonpos {a b : Int} (ha : a ≤ 0) (hb : 0 ≤ b) :
    Int.tdiv a b ≤ 0 := by
  have h := Int.tdiv_nonneg (neg_nonneg.mpr ha) hb
  rw [Int.neg_tdiv] at h
  omega

/-- Truncating division by 86400 is monotone on nonnegative arguments. -/
theorem tdiv_day_mono {a b : Int} (ha : 0 ≤ a) (hab : a ≤ b) :
    Int.tdiv a 86400 ≤ Int.tdiv b 86400 := by
  rw [Int.tdiv_eq_ediv ha (by norm_num), Int.tdiv_eq_ediv (le_trans ha hab) (by norm_num)]
  exact Int.ediv_le_ediv (by norm_num) hab

/-! ## C1 — overdue flag and day count of the canonical record -/

/-- C1 counterexample: a task due one hour before the evaluation
instant is flagged overdue, yet `int(hours/24)` truncates toward zero,
so `days_until_due` is 0 and not negative as the claim requires. -/
theorem c1_counterexample :
    (buildTaskDetail c1KanTask { id := 3, name := "P" } (fun _ => "Todo")
        (fun _ => "Default") (fun _ => none) "http://kb" true 1000000).isOverdue = true ∧
    (buildTaskDetail c1KanTask { id := 3, name := "P" } (fun _ => "Todo")
        (fun _ => "Default") (fun _ => none) "http://kb" true 1000000).daysUntilDue = some 0 ∧
    ¬ ((0 : Int) < 0) := by
  refine ⟨by decide, by decide, by decide⟩

/-- C1 (amended): for every canonical record built by the Collector at
instant `now`, `is_overdue` holds iff a due date exists strictly before
`now`; `is_overdue` implies `days_until_due ≤ 0` (not `< 0`: truncation
toward zero maps a task overdue by less than a day to 0), and a
non-overdue task with a due date has `days_until_due ≥ 0`. -/
theorem c1_amended (task : Task) (project : ProjectData)
    (columnMap swimlaneMap : Int → String) (userMap : Int → Option UserInfo)
    (baseURL : String) (tt : Bool) (now : Int) :
    ((buildTaskDetail task project columnMap swimlaneMap userMap baseURL tt now).isOverdue
        = true ↔ ∃ d, task.dateDue = some d ∧ d < now) ∧
    ((buildTaskDetail task project columnMap swimlaneMap userMap baseURL tt now).isOverdue
        = true →
      ∃ d, (buildTaskDetail task project columnMap swimlaneMap userMap baseURL tt
        now).daysUntilDue = some d ∧ d ≤ 0) ∧
    ((buildTaskDetail task project columnMap swimlaneMap userMap baseURL tt now).isOverdue
        = false →
      ∀ d, (buildTaskDetail task project columnMap swimlaneMap userMap baseURL tt
        now).daysUntilDue = some d → 0 ≤ d) := by
  cases hdue : task.dateDue with
  | none =>
    simp [buildTaskDetail, hdue]
  | some d =>
    simp only [buildTaskDetail, calculateDueDateInfo, hdue, Option.isSome_some, if_true]
    refine ⟨by simp [decide_eq_true_iff], ?_, ?_⟩
    · intro hover
      refine ⟨Int.tdiv (d - now) 86400, rfl, ?_⟩
      simp only [decide_eq_true_iff] at hover
      exact tdiv_nonpos_of_nonpos (by omega) (by norm_num)
    · intro hnot e he
      simp only [decide_eq_false_iff_not, not_lt] at hnot
      obtain rfl : Int.tdiv (d - now) 86400 = e := by
        simpa using he
      exact Int.tdiv_nonneg (by omega) (by norm_num)

/-- C1 witness: the amended theorem applied at a concrete record whose
due date lies one hour before the evaluation instant. -/
theorem c1_amended_witness :
    (buildTaskDetail c1KanTask { id := 3, name := "P" } (fun _ => "Todo")
        (fun _ => "Default") (fun _ => none) "http://kb" true 1000000).isOverdue = true := by
  exact (c1_amended c1KanTask { id := 3, name := "P" } (fun _ => "Todo")
    (fun _ => "Default") (fun _ => none) "http://kb" true 1000000).1.mpr
    ⟨996400, rfl, by decide⟩

/-! ## C9 — the two completion predicates -/

/-- C9: the Trend Analyzer's completion predicate holds iff the column
name exactly equals one of Done/Completed/Closed/Finished, the
Collector's holds iff it case-insensitively equals one of them, exact
matches satisfy both, and the case variant `done` separates them. -/
theorem c9_completion_predicates :
    (∀ t : TaskDetail, analyticsIsTaskCompleted t = true ↔
      (t.status.column = "Done" ∨ t.status.column = "Completed" ∨
       t.status.column = "Closed" ∨ t.status.column = "Finished")) ∧
    (∀ t : TaskDetail, isTaskCompleted t = true ↔
      (lowerStr t.status.column = "done" ∨ lowerStr t.status.column = "completed" ∨
       lowerStr t.status.column = "closed" ∨ lowerStr t.status.column = "finished")) ∧
    (∀ t : TaskDetail, analyticsIsTaskCompleted t = true → isTaskCompleted t = true) ∧
    isTaskCompleted doneLowerDetail = true ∧
    analyticsIsTaskCompleted doneLowerDetail = false := by
  have hD : lowerStr "Done" = "done" := by decide
  have hC : lowerStr "Completed" = "completed" := by decide
  have hX : lowerStr "Closed" = "closed" := by decide
  have hF : lowerStr "Finished" = "finished" := by decide
  refine ⟨fun t => ?_, fun t => ?_, fun t h => ?_, by decide, by decide⟩
  · simp [analyticsIsTaskCompleted]
  · simp [isTaskCompleted, eqFold, hD, hC, hX, hF]
  · simp only [analyticsIsTaskCompleted, List.any_cons, List.any_nil,
      Bool.or_eq_true, beq_iff_eq, or_false] at h
    rcases h with h | h | h | h | h
    · simp [isTaskCompleted, eqFold, h]
    · simp [isTaskCompleted, eqFold, h]
    · simp [isTaskCompleted, eqFold, h]
    · simp [isTaskCompleted, eqFold, h]
    · exact absurd h (by simp)

/-- C9 witness: the exact-implies-fold implication applied to a record
sitting in the exact-case `Done` column. -/
theorem c9_witness :
    isTaskCompleted { baseDetail with status := { column := "Done", swimlane := "" } } = true := by
  exact c9_completion_predicates.2.2.1
    { baseDetail with status := { column := "Done", swimlane := "" } } (by decide)

/-! ## C10 — hardcoded priority tier and category -/

/-- C10: every record the Collector builds has priority `normal` and an
empty category; hence the urgency priority bonus is the `normal` bonus
5 and the `priority` sort comparator rejects every pair in both
orders. -/
theorem c10_priority_constant (t1 t2 : Task) (p1 p2 : ProjectData)
    (cm1 sm1 cm2 sm2 : Int → String) (um1 um2 : Int → Option UserInfo)
    (u1 u2 : String) (b1 b2 : Bool) (n1 n2 : Int) :
    (buildTaskDetail t1 p1 cm1 sm1 um1 u1 b1 n1).priority = "normal" ∧
    (buildTaskDetail t1 p1 cm1 sm1 um1 u1 b1 n1).category = "" ∧
    priorityBonus (buildTaskDetail t1 p1 cm1 sm1 um1 u1 b1 n1).priority = 5 ∧
    sortLessFor "priority" = priorityLess ∧
    priorityLess (buildTaskDetail t1 p1 cm1 sm1 um1 u1 b1 n1)
      (buildTaskDetail t2 p2 cm2 sm2 um2 u2 b2 n2) = false ∧
    priorityLess (buildTaskDetail t2 p2 cm2 sm2 um2 u2 b2 n2)
      (buildTaskDetail t1 p1 cm1 sm1 um1 u1 b1 n1) = false := by
  exact ⟨rfl, rfl, rfl, rfl, rfl, rfl⟩

/-! ## C2 — summary-mode limit -/

/-- C2 (code bug): the unconditional cap to 100 runs before the
summary-mode check against 200, so the effective summary-mode limit
never exceeds 100; with limit 150 and 150 filtered tasks the handler
emits 100 summaries, not the `min(150, 200, 150) = 150` the claim
requires. -/
theorem c2_summary_limit_bug :
    (∀ limit : Nat, handleLimit limit true ≤ MaxTasksHardLimit) ∧
    handleLimit 150 true = 100 ∧
    (createTaskSummaries (List.replicate 150 baseDetail) (handleLimit 150 true)).length
      = 100 ∧
    min 150 (min 200 (List.replicate 150 baseDetail).length) = 150 := by
  refine ⟨fun limit => ?_, ?_, ?_, ?_⟩
  · simp only [handleLimit, MaxTasksHardLimit]
    split_ifs <;> omega
  · rfl
  · simp [createTaskSummaries, handleLimit, MaxTasksHardLimit]
  · simp

/-! ## C3 — detail-mode response-size ceiling -/

/-- Any limit `findFitLimit` returns indexes a prefix whose probe size
fits the ceiling, is positive, and is bounded by the scan start. -/
theorem findFitLimit_spec (measure : List TaskDetail → Nat) (tasks : List TaskDetail) :
    ∀ n lim, findFitLimit measure tasks n = some lim →
      measure (tasks.take lim) ≤ MaxResponseSize ∧ 0 < lim ∧ lim ≤ n := by
  intro n
  induction n with
  | zero => intro lim h; simp [findFitLimit] at h
  | succ k ih =>
    intro lim h
    rw [findFitLimit] at h
    split at h
    · obtain rfl : k + 1 = lim := by simpa using h
      exact ⟨by assumption, Nat.succ_pos k, Nat.le_refl _⟩
    · obtain ⟨hm, hpos, hle⟩ := ih lim h
      exact ⟨hm, hpos, Nat.le_succ_of_le hle⟩

/-- C3: in detail mode the probe-measured size of the emitted record
list never exceeds `MaxResponseSize` (given that the empty response
fits, as it does for the real JSON encoder); `truncated = true` always
carries `truncated_at` equal to the emitted count, and whenever
size-trimming dropped trailing records both hold. -/
theorem c3_detail_size_limits (measure : List TaskDetail → Nat)
    (tasks : List TaskDetail) (requestedLimit : Nat)
    (hEmpty : measure [] ≤ MaxResponseSize) :
    measure (applyResponseSizeLimits measure tasks requestedLimit).1 ≤ MaxResponseSize ∧
    ((applyResponseSizeLimits measure tasks requestedLimit).2.1 = true →
      (applyResponseSizeLimits measure tasks requestedLimit).2.2 =
        (applyResponseSizeLimits measure tasks requestedLimit).1.length) ∧
    ((applyResponseSizeLimits measure tasks requestedLimit).1.length <
        (tasks.take requestedLimit).length →
      (applyResponseSizeLimits measure tasks requestedLimit).2.1 = true ∧
      (applyResponseSizeLimits measure tasks requestedLimit).2.2 =
        (applyResponseSizeLimits measure tasks requestedLimit).1.length) := by
  simp only [applyResponseSizeLimits]
  cases hf : findFitLimit measure (tasks.take requestedLimit)
      (tasks.take requestedLimit).length with
  | none => simp [hEmpty]
  | some lim =>
    obtain ⟨hm, hpos, hle⟩ :=
      findFitLimit_spec measure (tasks.take requestedLimit)
        (tasks.take requestedLimit).length lim hf
    by_cases hlt : lim < (tasks.take requestedLimit).length
    · simp only [if_pos hlt]
      have hlen : ((tasks.take requestedLimit).take lim).length = lim := by
        rw [List.length_take]; omega
      exact ⟨hm, fun _ => hlen.symm, fun _ => ⟨trivial, hlen.symm⟩⟩
    · simp only [if_neg hlt]
      have hlen : ((tasks.take requestedLimit).take lim).length =
          (tasks.take requestedLimit).length := by
        rw [List.length_take]; omega
      refine ⟨hm, by simp, fun hcon => ?_⟩
      rw [hlen] at hcon
      exact absurd hcon (lt_irrefl _)

/-- C3 witness: the size-limit theorem applied to a one-record list
under the zero measure. -/
theorem c3_witness :
    measure0 (applyResponseSizeLimits measure0 [baseDetail] 5).1 ≤ MaxResponseSize ∧
    ((applyResponseSizeLimits measure0 [baseDetail] 5).2.1 = true →
      (applyResponseSizeLimits measure0 [baseDetail] 5).2.2 =
        (applyResponseSizeLimits measure0 [baseDetail] 5).1.length) ∧
    ((applyResponseSizeLimits measure0 [baseDetail] 5).1.length <
        ([baseDetail].take 5).length →
      (applyResponseSizeLimits measure0 [baseDetail] 5).2.1 = true ∧
      (applyResponseSizeLimits measure0 [baseDetail] 5).2.2 =
        (applyResponseSizeLimits measure0 [baseDetail] 5).1.length) :=
  c3_detail_size_limits measure0 [baseDetail] 5 (by decide)

/-! ## C5 — due-date sorting -/

/-- C5 counterexample: `sort.Slice` is not stable — swapping two
distinct records tied on their due date satisfies everything Go
guarantees about the sort, yet the tie does not keep its input
order. -/
theorem c5_counterexample :
    IsGoSorted dueDateLess [c5a, c5b] [c5b, c5a] ∧
    ¬ StableFor dueDateLess [c5a, c5b] [c5b, c5a] := by
  refine ⟨⟨by decide, by decide⟩, fun h => absurd (h c5a) (by decide)⟩

/-- C5 (amended): any `sort.Slice`-conformant due-date sort output (the
same comparator serves every unknown sort key) is a permutation of the
input in which a dated record never follows an undated one and dated
records appear in non-decreasing due-date order; stability is not
guaranteed. -/
theorem c5_amended (input output : List TaskDetail) (sortBy : String)
    (hkey1 : sortBy ≠ "priority") (hkey2 : sortBy ≠ "created")
    (h : IsGoSorted (sortLessFor sortBy) input output) :
    sortLessFor sortBy = dueDateLess ∧
    output.Perm input ∧
    output.Pairwise (fun a b =>
      b.dates.due = none ∨
      ∃ x y, a.dates.due = some x ∧ b.dates.due = some y ∧ x ≤ y) := by
  have hless : sortLessFor sortBy = dueDateLess := by
    rcases eq_or_ne sortBy "due_date" with rfl | hd
    · rfl
    · simp only [sortLessFor]
      rw [if_neg (by simpa using hd), if_neg (by simpa using hkey1),
        if_neg (by simpa using hkey2)]
  obtain ⟨hperm, hpair⟩ := h
  rw [hless] at hpair
  refine ⟨hless, hperm.symm, hpair.imp ?_⟩
  intro a b hab
  cases ha : a.dates.due with
  | none =>
    cases hb : b.dates.due with
    | none => exact Or.inl rfl
    | some y =>
      rw [dueDateLess, ha, hb] at hab
      exact absurd hab (by simp)
  | some x =>
    cases hb : b.dates.due with
    | none => exact Or.inl rfl
    | some y =>
      rw [dueDateLess, ha, hb] at hab
      exact Or.inr ⟨x, y, rfl, rfl, by simpa using hab⟩

/-- C5 witness: the amended theorem at a singleton list under the
unknown sort key `bogus`. -/
theorem c5_amended_witness :
    sortLessFor "bogus" = dueDateLess ∧
    [c5a].Perm [c5a] ∧
    List.Pairwise (fun a b : TaskDetail =>
      b.dates.due = none ∨
      ∃ x y, a.dates.due = some x ∧ b.dates.due = some y ∧ x ≤ y) [c5a] :=
  c5_amended [c5a] [c5a] "bogus" (by decide) (by decide) ⟨by decide, by decide⟩

/-! ## C4 — the task set the Priority Analyzer analyses -/

/-- The Priority Analyzer's collector request filters out nothing:
status `all` skips the completion check, the assignee list is empty,
overdue tasks are included, and there is no due-date range. -/
theorem prioritiesFilter_id (tasks : List TaskDetail) :
    filterTasks tasks prioritiesTasksRequest = tasks := by
  apply List.filter_eq_self.mpr
  intro t _
  rfl

/-- Under the always-zero probe measure, the size scan accepts the
whole limit-capped list at once. -/
theorem applyResponseSizeLimits_measure0 (tasks : List TaskDetail) (lim : Nat)
    (hne : tasks.take lim ≠ []) :
    applyResponseSizeLimits measure0 tasks lim = (tasks.take lim, false, 0) := by
  simp only [applyResponseSizeLimits]
  cases hlen : (tasks.take lim).length with
  | zero => exact absurd (List.length_eq_zero.mp hlen) hne
  | succ k =>
    have h1 : findFitLimit measure0 (tasks.take lim) (k + 1) = some (k + 1) := by
      rw [findFitLimit]
      simp [measure0, MaxResponseSize]
    rw [h1]
    simp only []
    rw [if_neg (lt_irrefl (k + 1))]
    rw [show k + 1 = (tasks.take lim).length from hlen.symm, List.take_length]

/-- The record list emitted by the size-limit stage is a sublist of the
limit-capped input. -/
theorem applyResponseSizeLimits_sublist (measure : List TaskDetail → Nat)
    (tasks : List TaskDetail) (lim : Nat) :
    (applyResponseSizeLimits measure tasks lim).1.Sublist (tasks.take lim) := by
  simp only [applyResponseSizeLimits]
  split
  · split
    · exact List.take_sublist _ _
    · exact List.take_sublist _ _
  · exact List.nil_sublist _

/-- C4 counterexample: with 101 collected tasks, a conformant run of
the pipeline the Priority Analyzer invokes yields an analysed set of
only the first 100 records — the task with id `100` is collected but
absent, because the Collector caps the requested limit 200 down to
100. -/
theorem c4_counterexample :
    DetailPipelineRel measure0 prioritiesTasksRequest c4Tasks
      (c4Tasks.take 100, false, 0) ∧
    ({ baseDetail with id := toString 100 } : TaskDetail) ∈ c4Tasks ∧
    ({ baseDetail with id := toString 100 } : TaskDetail) ∉ c4Tasks.take 100 := by
  have hdue : ∀ a ∈ c4Tasks, a.dates.due = none := by
    intro a ha
    simp only [c4Tasks, List.mem_map] at ha
    obtain ⟨i, _, rfl⟩ := ha
    rfl
  refine ⟨⟨c4Tasks, ⟨?_, ?_⟩, ?_⟩, ?_, ?_⟩
  · rw [prioritiesFilter_id]
  · apply List.pairwise_of_forall_mem_list
    intro a ha b hb
    show dueDateLess b a = false
    rw [dueDateLess, hdue a ha, hdue b hb]
  · rw [show handleLimit prioritiesTasksRequest.limit prioritiesTasksRequest.summaryMode
        = 100 from rfl]
    rw [applyResponseSizeLimits_measure0 c4Tasks 100 (by decide)]
  · simp only [c4Tasks, List.mem_map]
    exact ⟨100, by simp, rfl⟩
  · decide

/-- Chasing the size-limit stage when every probe fits and the whole
list survives the limit cap: the output is the sorted list itself. -/
theorem applyResponseSizeLimits_all_fit (measure : List TaskDetail → Nat)
    (sorted : List TaskDetail) (hslen : sorted.length ≤ 100)
    (hfit : ∀ l, measure l ≤ MaxResponseSize) :
    (applyResponseSizeLimits measure sorted 100).1 = sorted := by
  have htake : sorted.take 100 = sorted := List.take_of_length_le hslen
  simp only [applyResponseSizeLimits, htake]
  cases sorted with
  | nil => simp [findFitLimit]
  | cons s ss =>
    simp only [List.length_cons]
    have h1 : findFitLimit measure (s :: ss) (ss.length + 1) = some (ss.length + 1) := by
      rw [findFitLimit]
      simp [hfit]
    rw [h1]
    simp only []
    rw [if_neg (lt_irrefl (ss.length + 1))]
    rw [show ss.length + 1 = (s :: ss).length from (List.length_cons s ss).symm,
      List.take_length]

/-- C4 (amended): the Priority Analyzer's collector request is
unfiltered (its filters pass every record), but its limit 200 is capped
to 100, so the analysed set holds at most the first 100 sorted records
(size ceiling permitting); only when at most 100 tasks were collected
and every probe fits the ceiling does the analysed set contain exactly
the collected tasks. -/
theorem c4_amended (measure : List TaskDetail → Nat) (tasks : List TaskDetail)
    (result : List TaskDetail × Bool × Nat)
    (h : DetailPipelineRel measure prioritiesTasksRequest tasks result) :
    filterTasks tasks prioritiesTasksRequest = tasks ∧
    handleLimit prioritiesTasksRequest.limit prioritiesTasksRequest.summaryMode = 100 ∧
    result.1.length ≤ 100 ∧
    (∀ t ∈ result.1, t ∈ tasks) ∧
    (tasks.length ≤ 100 → (∀ l, measure l ≤ MaxResponseSize) → result.1.Perm tasks) := by
  obtain ⟨sorted, ⟨hperm, _⟩, hres⟩ := h
  rw [prioritiesFilter_id] at hperm
  have hres1 : result = applyResponseSizeLimits measure sorted 100 := hres
  have hsub : result.1.Sublist (sorted.take 100) := by
    rw [hres1]; exact applyResponseSizeLimits_sublist measure sorted 100
  refine ⟨prioritiesFilter_id tasks, rfl, ?_, ?_, ?_⟩
  · calc result.1.length ≤ (sorted.take 100).length := hsub.length_le
      _ ≤ 100 := by rw [List.length_take]; omega
  · intro t ht
    exact hperm.symm.mem_iff.mp ((List.take_sublist _ _).subset (hsub.subset ht))
  · intro hlen hfit
    have hslen : sorted.length ≤ 100 := hperm.length_eq ▸ hlen
    rw [hres1, applyResponseSizeLimits_all_fit measure sorted hslen hfit]
    exact hperm.symm

/-- C4 witness: the amended theorem at a single collected task under
the zero measure, analysed set equal to the collection. -/
theorem c4_amended_witness :
    (applyResponseSizeLimits measure0 [baseDetail]
        (handleLimit prioritiesTasksRequest.limit
          prioritiesTasksRequest.summaryMode)).1.Perm [baseDetail] :=
  (c4_amended measure0 [baseDetail] _
      ⟨[baseDetail], ⟨by decide, by decide⟩, rfl⟩).2.2.2.2
    (by decide) (fun l => Nat.zero_le _)

/-! ## C6 — urgent-item selection -/

/-- C6 counterexample: with eleven tasks all scoring 95, a conformant
run keeps only ten items, so one task with score ≥ 70 is absent
(refuting the claimed iff), and the tied output is not strictly
descending. -/
theorem c6_counterexample :
    FindUrgentItemsRel c6Tasks 900000 1504800 c6Out ∧
    70 ≤ calculateUrgencyScore (mkUrgTask 10) 900000 1504800 ∧
    mkUrgentItem (mkUrgTask 10)
      (calculateUrgencyScore (mkUrgTask 10) 900000 1504800) 900000 ∉ c6Out ∧
    ¬ c6Out.Pairwise (fun a b => b.urgencyScore < a.urgencyScore) := by
  refine ⟨⟨urgentCandidates c6Tasks 900000 1504800,
    ⟨List.Perm.refl _, by decide⟩, rfl⟩, by decide, by decide, by decide⟩

/-- C6 (amended): every conformant urgent-item output holds at most 10
items, each built from a collected task whose urgency score it carries,
with score at least 70, in non-increasing (not necessarily strictly
decreasing) score order; and when at most 10 tasks qualify, every task
scoring at least 70 appears. -/
theorem c6_amended (tasks : List TaskDetail) (now timeLimit : Int)
    (out : List UrgentItem) (h : FindUrgentItemsRel tasks now timeLimit out) :
    out.length ≤ 10 ∧
    (∀ i ∈ out, 70 ≤ i.urgencyScore ∧
      ∃ t ∈ tasks, i = mkUrgentItem t (calculateUrgencyScore t now timeLimit) now) ∧
    out.Pairwise (fun a b => b.urgencyScore ≤ a.urgencyScore) ∧
    ((urgentCandidates tasks now timeLimit).length ≤ 10 →
      ∀ t ∈ tasks, 70 ≤ calculateUrgencyScore t now timeLimit →
        mkUrgentItem t (calculateUrgencyScore t now timeLimit) now ∈ out) := by
  obtain ⟨sorted, ⟨hperm, hpair⟩, hout⟩ := h
  subst hout
  refine ⟨?_, ?_, ?_, ?_⟩
  · rw [List.length_take]; omega
  · intro i hi
    have hic : i ∈ urgentCandidates tasks now timeLimit :=
      hperm.mem_iff.mpr ((List.take_sublist _ _).subset hi)
    simp only [urgentCandidates, List.mem_filterMap] at hic
    obtain ⟨t, ht, hsome⟩ := hic
    by_cases hscore : 70 ≤ calculateUrgencyScore t now timeLimit
    · rw [if_pos (by exact_mod_cast hscore)] at hsome
      obtain rfl : mkUrgentItem t (calculateUrgencyScore t now timeLimit) now = i :=
        Option.some_injective _ hsome
      exact ⟨hscore, t, ht, rfl⟩
    · rw [if_neg (by exact_mod_cast hscore)] at hsome
      exact absurd hsome (by simp)
  · refine ((hpair.sublist (List.take_sublist _ _)).imp ?_)
    intro a b hab
    have : ¬ (a.urgencyScore < b.urgencyScore) := by
      simpa [urgencyLess] using hab
    omega
  · intro hle t ht hscore
    have hslen : sorted.length ≤ 10 := hperm.length_eq ▸ hle
    rw [List.take_of_length_le hslen]
    refine hperm.mem_iff.mp ?_
    simp only [urgentCandidates, List.mem_filterMap]
    exact ⟨t, ht, by rw [if_pos (by exact_mod_cast hscore)]⟩

/-- C6 witness: the amended theorem at a single qualifying task; its
item appears in the conformant output. -/
theorem c6_amended_witness :
    mkUrgentItem (mkUrgTask 0)
      (calculateUrgencyScore (mkUrgTask 0) 900000 1504800) 900000 ∈
      (urgentCandidates [mkUrgTask 0] 900000 1504800).take 10 :=
  (c6_amended [mkUrgTask 0] 900000 1504800 _
      ⟨urgentCandidates [mkUrgTask 0] 900000 1504800,
        ⟨List.Perm.refl _, by decide⟩, rfl⟩).2.2.2
    (by decide) (mkUrgTask 0) (by decide) (by decide)

/-! ## C7 — urgency-score monotonicity -/

/-- The urgency score is the sum of its four let-bound components and
the priority bonus. -/
theorem score_decomp (task : TaskDetail) (now timeLimit : Int) :
    calculateUrgencyScore task now timeLimit =
      dueFlagBonus task + overdueBonus task + proximityBonus task now timeLimit +
        priorityBonus task.priority + unassignedBonus task := rfl

/-- The due-soon escalation never exceeds 25. -/
theorem proximityBonus_le (task : TaskDetail) (now timeLimit : Int) :
    proximityBonus task now timeLimit ≤ 25 := by
  unfold proximityBonus
  split_ifs with h1
  · cases hdue : task.dates.due with
    | none => norm_num
    | some d =>
      simp only
      split_ifs <;> omega
  · norm_num

/-- The due-soon escalation is nonnegative. -/
theorem proximityBonus_nonneg (task : TaskDetail) (now timeLimit : Int) :
    0 ≤ proximityBonus task now timeLimit := by
  unfold proximityBonus
  split_ifs with h1
  · cases hdue : task.dates.due with
    | none => norm_num
    | some d =>
      simp only
      split_ifs <;> omega
  · norm_num

/-- A task with no due date earns no due-soon escalation. -/
theorem proximityBonus_none (task : TaskDetail) (now timeLimit : Int)
    (h : task.dates.due = none) : proximityBonus task now timeLimit = 0 := by
  unfold proximityBonus
  rw [h]
  cases task.isOverdue <;> rfl

/-- Decomposed score of the overdue-by-10-days variant: the due-soon
branch is off and the overdue branch contributes 40 + 30. -/
theorem score_overdue10 (t : TaskDetail) (now timeLimit : Int) :
    calculateUrgencyScore
        { t with isOverdue := true, daysUntilDue := some (-10) } now timeLimit =
      dueFlagBonus t + 70 + 0 + priorityBonus t.priority + unassignedBonus t := rfl

/-- Decomposed score of a priority-tier update. -/
theorem score_update_priority (t : TaskDetail) (p : String) (now timeLimit : Int) :
    calculateUrgencyScore { t with priority := p } now timeLimit =
      dueFlagBonus t + overdueBonus t + proximityBonus t now timeLimit +
        priorityBonus p + unassignedBonus t := rfl

/-- Decomposed score of clearing the assignee. -/
theorem score_update_assignee (t : TaskDetail) (now timeLimit : Int) :
    calculateUrgencyScore { t with assignee := none } now timeLimit =
      dueFlagBonus t + overdueBonus t + proximityBonus t now timeLimit +
        priorityBonus t.priority + 15 := rfl

/-- Decomposed score of a due-date update. -/
theorem score_update_due (t : TaskDetail) (d now timeLimit : Int) :
    calculateUrgencyScore { t with dates := { t.dates with due := some d } } now timeLimit =
      20 + overdueBonus t +
        proximityBonus { t with dates := { t.dates with due := some d } } now timeLimit +
        priorityBonus t.priority + unassignedBonus t := rfl

/-- The due-soon escalation of a due-date update, written out. -/
theorem prox_update_due (t : TaskDetail) (d now timeLimit : Int) :
    proximityBonus { t with dates := { t.dates with due := some d } } now timeLimit =
      if !t.isOverdue then
        (if d < timeLimit then
          if Int.tdiv (d - now) 86400 ≤ 1 then 25
          else if Int.tdiv (d - now) 86400 ≤ 3 then 15
          else if Int.tdiv (d - now) 86400 ≤ 7 then 10
          else 0
        else 0)
      else 0 := rfl

/-- Decomposed score of a days-until-due update. -/
theorem score_update_days (t : TaskDetail) (d now timeLimit : Int) :
    calculateUrgencyScore { t with daysUntilDue := some d } now timeLimit =
      dueFlagBonus t +
        (if t.isOverdue then 40 + (if -d > 7 then 30 else if -d > 3 then 20 else 10)
         else 0) +
        proximityBonus t now timeLimit + priorityBonus t.priority + unassignedBonus t := rfl

/-- C7: the urgency score is monotone under each contributing condition
in isolation: turning a non-overdue task into its otherwise-identical
overdue-by-10-days variant strictly increases the score; a higher
priority tier, clearing the assignee, adding a due date, moving an
existing (non-overdue) due date closer, or being more days overdue
never lowers it. -/
theorem c7_urgency_monotonicity :
    (∀ (t : TaskDetail) (now timeLimit : Int), t.isOverdue = false →
      calculateUrgencyScore t now timeLimit <
        calculateUrgencyScore
          { t with isOverdue := true, daysUntilDue := some (-10) } now timeLimit) ∧
    (∀ (t : TaskDetail) (now timeLimit : Int) (p q : String),
      p ∈ ["low", "normal", "high", "urgent"] →
      q ∈ ["low", "normal", "high", "urgent"] →
      getPriorityValue p ≤ getPriorityValue q →
      calculateUrgencyScore { t with priority := p } now timeLimit ≤
        calculateUrgencyScore { t with priority := q } now timeLimit) ∧
    (∀ (t : TaskDetail) (now timeLimit : Int),
      calculateUrgencyScore t now timeLimit ≤
        calculateUrgencyScore { t with assignee := none } now timeLimit) ∧
    (∀ (t : TaskDetail) (now timeLimit d : Int), t.dates.due = none →
      calculateUrgencyScore t now timeLimit ≤
        calculateUrgencyScore
          { t with dates := { t.dates with due := some d } } now timeLimit) ∧
    (∀ (t : TaskDetail) (now timeLimit d1 d2 : Int), t.isOverdue = false →
      now ≤ d1 → d1 ≤ d2 →
      calculateUrgencyScore
          { t with dates := { t.dates with due := some d2 } } now timeLimit ≤
        calculateUrgencyScore
          { t with dates := { t.dates with due := some d1 } } now timeLimit) ∧
    (∀ (t : TaskDetail) (now timeLimit d1 d2 : Int), t.isOverdue = true →
      d2 ≤ d1 →
      calculateUrgencyScore { t with daysUntilDue := some d1 } now timeLimit ≤
        calculateUrgencyScore { t with daysUntilDue := some d2 } now timeLimit) := by
  refine ⟨?_, ?_, ?_, ?_, ?_, ?_⟩
  · intro t now timeLimit h
    rw [score_decomp, score_overdue10]
    have e1 : overdueBonus t = 0 := by simp [overdueBonus, h]
    have e2 := proximityBonus_le t now timeLimit
    omega
  · intro t now timeLimit p q hp hq hpq
    have hb : priorityBonus p ≤ priorityBonus q := by
      fin_cases hp <;> fin_cases hq <;> simp_all [priorityBonus, getPriorityValue]
    rw [score_update_priority, score_update_priority]
    omega
  · intro t now timeLimit
    rw [score_decomp, score_update_assignee]
    have e1 : unassignedBonus t ≤ 15 := by
      unfold unassignedBonus
      split_ifs <;> omega
    omega
  · intro t now timeLimit d h
    rw [score_decomp, score_update_due]
    have e1 : dueFlagBonus t = 0 := by simp [dueFlagBonus, h]
    have e2 : proximityBonus t now timeLimit = 0 := proximityBonus_none t now timeLimit h
    have e3 := proximityBonus_nonneg
      { t with dates := { t.dates with due := some d } } now timeLimit
    omega
  · intro t now timeLimit d1 d2 h h1 h2
    have hm : Int.tdiv (d1 - now) 86400 ≤ Int.tdiv (d2 - now) 86400 :=
      tdiv_day_mono (by omega) (by omega)
    rw [score_update_due, score_update_due, prox_update_due, prox_update_due, h]
    simp only [Bool.not_false, if_true]
    split_ifs <;> omega
  · intro t now timeLimit d1 d2 h hd
    rw [score_update_days, score_update_days, h]
    simp only [if_true]
    split_ifs <;> omega

/-- C7 witness: each monotonicity conjunct applied at a concrete
record. -/
theorem c7_witness :
    (calculateUrgencyScore baseDetail 0 0 <
      calculateUrgencyScore
        { baseDetail with isOverdue := true, daysUntilDue := some (-10) } 0 0) ∧
    (calculateUrgencyScore { baseDetail with priority := "low" } 0 0 ≤
      calculateUrgencyScore { baseDetail with priority := "urgent" } 0 0) ∧
    (calculateUrgencyScore baseDetail 0 0 ≤
      calculateUrgencyScore { baseDetail with assignee := none } 0 0) ∧
    (calculateUrgencyScore baseDetail 0 0 ≤
      calculateUrgencyScore
        { baseDetail with dates := { baseDetail.dates with due := some 5 } } 0 0) ∧
    (calculateUrgencyScore
        { baseDetail with dates := { baseDetail.dates with due := some 4 } } 0 100 ≤
      calculateUrgencyScore
        { baseDetail with dates := { baseDetail.dates with due := some 3 } } 0 100) ∧
    (calculateUrgencyScore
        { baseDetail with isOverdue := true, daysUntilDue := some (-1) } 0 0 ≤
      calculateUrgencyScore
        { baseDetail with isOverdue := true, daysUntilDue := some (-5) } 0 0) := by
  refine ⟨c7_urgency_monotonicity.1 baseDetail 0 0 rfl,
    c7_urgency_monotonicity.2.1 baseDetail 0 0 "low" "urgent"
      (by decide) (by decide) (by decide),
    c7_urgency_monotonicity.2.2.1 baseDetail 0 0,
    c7_urgency_monotonicity.2.2.2.1 baseDetail 0 0 5 rfl,
    c7_urgency_monotonicity.2.2.2.2.1 baseDetail 0 100 3 4 rfl
      (by decide) (by decide),
    ?_⟩
  exact c7_urgency_monotonicity.2.2.2.2.2
    { baseDetail with isOverdue := true } 0 0 (-1) (-5) rfl (by decide)

/-! ## C8 — cycle-time metrics -/

/-- Evaluation of the cycle-time pipeline on the single `Alpha`/`Done`
task: one group keyed `Alpha:Done` with a 5-day duration, whose emitted
metric carries the placeholder names. -/
theorem c8_raw_eq :
    cycleTimeMetricsRaw [c8Task] =
      [{ column := "Column", project := "Project", avgDays := 5, minDays := 5,
         maxDays := 5, taskCount := 1, efficiency := "Good" }] := by
  have he : cycleTimeEntry c8Task = some ("Alpha:Done", 5) := by
    simp only [cycleTimeEntry, analyticsIsTaskCompleted, c8Task, baseDetail]
    norm_num
    rfl
  have hgroups : cycleGroups [c8Task] = [("Alpha:Done", [5])] := by
    simp only [cycleGroups, List.foldl, he, groupInsert]
  rw [cycleTimeMetricsRaw, hgroups, List.filterMap_cons, List.filterMap_nil]
  rw [if_neg (by simp)]
  simp only [cycleMetricOf, calculateAverage, calculateMin, calculateMax, List.foldl]
  norm_num
  constructor <;> intro h <;> exact absurd h (by decide)

/-- C8 (code bug evaluation): every conformant cycle-time output for
the single `Alpha`/`Done` task is the expected one-group metric — 5-day
min/avg/max, one task, `Good` — but it carries the literal placeholder
names `Project` and `Column` instead of the group's project `Alpha` and
column `Done`. -/
theorem c8_cycle_time_bug (out : List CycleTimeMetric)
    (h : AnalyseCycleTimeRel [c8Task] out) :
    out = [{ column := "Column", project := "Project", avgDays := 5, minDays := 5,
             maxDays := 5, taskCount := 1, efficiency := "Good" }] ∧
    c8Task.project.name = "Alpha" ∧
    c8Task.status.column = "Done" := by
  obtain ⟨hperm, -⟩ := h
  rw [c8_raw_eq] at hperm
  exact ⟨(List.perm_singleton.mp hperm.symm), rfl, rfl⟩

/-- C8 witness: the bug evaluation applied to the conformant output
itself. -/
theorem c8_cycle_time_bug_witness :
    cycleTimeMetricsRaw [c8Task] =
      [{ column := "Column", project := "Project", avgDays := 5, minDays := 5,
         maxDays := 5, taskCount := 1, efficiency := "Good" }] ∧
    c8Task.project.name = "Alpha" ∧
    c8Task.status.column = "Done" :=
  c8_cycle_time_bug (cycleTimeMetricsRaw [c8Task])
    ⟨List.Perm.refl _, by rw [c8_raw_eq]; exact List.pairwise_singleton _ _⟩

end KanMcp
